import Mathlib

/-!
Verification of the SpeedFunnels performance-data pipeline.

This file embeds the algorithmic core of the repository in Lean 4:

* `src/backend/src/utils/dateUtils.js` — date normalization and validation
  (`formatToStandardDate`, `isValidDateFormat`);
* `src/backend/src/services/metaApiService.js` — the per-day conversion/event
  classifier and the aggregation performed by `getAccountPerformance`;
* `src/backend/src/controllers/statsController.js` — the gap-filling loop, the
  period aggregator `aggregatePeriodData`, the previous-period computation, and
  the derived-rate formulas of `getDashboardStats`.

Conventions of the embedding:

* JavaScript `Date` values that the code manipulates purely by whole-day
  arithmetic (24·60·60·1000 ms steps, `setDate`, millisecond differences that
  are exact multiples of a day because every date is parsed from a canonical
  `YYYY-MM-DD` string at UTC midnight) are modelled as integer day numbers
  (days since 1970-01-01).  `daysFromCivil` / `civilFromDays` convert between
  day numbers and civil `(year, month, day)` triples and model the calendar
  normalization performed by the JS `Date` constructor.
* Monetary quantities (`spend`, `revenue`) are rationals; counters are
  naturals.
* Date strings inside `metaApiService.js` are kept as Lean `String`s, compared
  with the same lexicographic order JavaScript uses on canonical date strings.
-/

namespace SpeedFunnels

/-! ### Civil-calendar arithmetic

Models the proleptic-Gregorian normalization performed by the JavaScript
`Date` constructor and by `date-fns`, over UTC.  `daysFromCivil` and
`civilFromDays` are the standard era-based conversions between a civil date
and a day number (days since 1970-01-01). -/

/-- Gregorian leap-year test. -/
def isLeapYear (y : Int) : Bool :=
  (y % 4 == 0 && y % 100 != 0) || (y % 400 == 0)

/-- Number of days in month `m` of year `y` (for `1 ≤ m ≤ 12`). -/
def daysInMonth (y : Int) (m : Int) : Int :=
  if m = 2 then (if isLeapYear y then 29 else 28)
  else if m = 4 ∨ m = 6 ∨ m = 9 ∨ m = 11 then 30
  else 31

/-- Day number (days since 1970-01-01) of the civil date `(y, m, d)`,
for `1 ≤ m ≤ 12`.  Era-based conversion with floor division. -/
def daysFromCivil (y m d : Int) : Int :=
  let y2 := if m ≤ 2 then y - 1 else y
  let era := y2.fdiv 400
  let yoe := y2 - era * 400
  let mp := if m > 2 then m - 3 else m + 9
  let doy := (153 * mp + 2).fdiv 5 + d - 1
  let doe := yoe * 365 + yoe.fdiv 4 - yoe.fdiv 100 + doy
  era * 146097 + doe - 719468

/-- Civil date `(y, m, d)` of the day number `z` (days since 1970-01-01). -/
def civilFromDays (z : Int) : Int × Int × Int :=
  let z2 := z + 719468
  let era := z2.fdiv 146097
  let doe := z2 - era * 146097
  let yoe := (doe - doe.fdiv 1460 + doe.fdiv 36524 - doe.fdiv 146096).fdiv 365
  let y := yoe + era * 400
  let doy := doe - (365 * yoe + yoe.fdiv 4 - yoe.fdiv 100)
  let mp := (5 * doy + 2).fdiv 153
  let d := doy - (153 * mp + 2).fdiv 5 + 1
  let m := if mp < 10 then mp + 3 else mp - 9
  (if m ≤ 2 then y + 1 else y, m, d)

/-- The JavaScript `new Date(year, monthIndex, day)` constructor, which
normalizes out-of-range month indices and day numbers by calendar rollover,
and maps two-digit years to 1900-based years.  Returns the civil date of the
resulting `Date`. -/
def jsDateCivil (year monthIndex day : Int) : Int × Int × Int :=
  let yearAdj := if 0 ≤ year ∧ year ≤ 99 then year + 1900 else year
  let y := yearAdj + monthIndex.fdiv 12
  let m := monthIndex.emod 12 + 1
  civilFromDays (daysFromCivil y m 1 + (day - 1))

/-! ### String helpers

JavaScript compares strings with `<` / `<=` by lexicographic order on code
units; on the canonical `YYYY-MM-DD` date strings this coincides with
chronological order.  The helpers below work on `String.data` (the underlying
character list) so that every comparison is kernel-computable. -/

/-- Lexicographic strict order on character lists — the JavaScript `<` on
strings. -/
def lexLt : List Char → List Char → Bool
  | [], [] => false
  | [], _ :: _ => true
  | _ :: _, [] => false
  | a :: as, b :: bs => if a < b then true else if b < a then false else lexLt as bs

/-- JavaScript `a < b` on strings. -/
def strLt (a b : String) : Bool :=
  lexLt a.data b.data

/-- JavaScript `a <= b` on strings (total order: `¬ (b < a)`). -/
def strLe (a b : String) : Bool :=
  !(lexLt b.data a.data)

/-- JavaScript `s.split('-')` on the underlying character list. -/
def splitOnDash (l : List Char) : List (List Char) :=
  match l with
  | [] => [[]]
  | c :: cs =>
    let rest := splitOnDash cs
    if c = '-' then [] :: rest
    else
      match rest with
      | [] => [[c]]
      | r :: rs => (c :: r) :: rs

/-- Numeric value of a digit string — the JavaScript `Number(...)` on an
all-digit string. -/
def digitsToNat (l : List Char) : Nat :=
  l.foldl (fun n c => n * 10 + (c.toNat - 48)) 0

/-! ### dateUtils.js — date normalization and validation -/

/-- The regex test `/^\d{4}-\d{2}-\d{2}$/` used by `formatToStandardDate`
and `isValidDateFormat` (dateUtils.js lines 24 and 103): three dash-separated
all-digit groups of widths 4, 2 and 2. -/
def matchesCanonicalFormat (s : String) : Bool :=
  match splitOnDash s.data with
  | [ys, ms, ds] =>
    ys.length == 4 && ms.length == 2 && ds.length == 2 &&
    ys.all Char.isDigit && ms.all Char.isDigit && ds.all Char.isDigit
  | _ => false

/-- `formatToStandardDate` of dateUtils.js (lines 20–38), for string inputs.
A falsy (empty) input yields `null` (`none`); a string already matching
`^\d{4}-\d{2}-\d{2}$` is returned unchanged, with no calendar validation;
any other string goes through the `format(parseISO(date), ...)` path, which
is the date-fns library (external to this core) and is therefore abstracted
as the `parseFallback` parameter. -/
def formatToStandardDate (parseFallback : String → Option String)
    (date : String) : Option String :=
  if date = "" then none
  else if matchesCanonicalFormat date then some date
  else parseFallback date

/-- `isValidDateFormat` of dateUtils.js (lines 99–112): the format regex,
then `new Date(year, month - 1, day)` followed by a field-by-field comparison
of the rollover-normalized date with the parsed components (`getMonth()`
is compared with `month - 1`, i.e. the months must agree). -/
def isValidDateFormat (dateString : String) : Bool :=
  match splitOnDash dateString.data with
  | [ys, ms, ds] =>
    if ys.length == 4 && ms.length == 2 && ds.length == 2 &&
       ys.all Char.isDigit && ms.all Char.isDigit && ds.all Char.isDigit then
      let year : Int := digitsToNat ys
      let month : Int := digitsToNat ms
      let day : Int := digitsToNat ds
      decide (jsDateCivil year (month - 1) day = (year, month, day))
    else false
  | _ => false

/-! ### metaApiService.js — the conversion/event classifier and
`getAccountPerformance` -/

/-- One entry of a day's `actions` array: an event-type tag.  (The entry's
`value` field plays no role in event counting — lines 633–637 increment the
per-type count by 1 per occurrence regardless of `value` — so it is omitted
here; monetary values live in `ActionValue`.) -/
structure RawAction where
  action_type : String
deriving Repr, DecidableEq

/-- One entry of a day's `action_values` array: an event-type tag and its
monetary value (lines 746–772 parse `value` with `parseFloat`, treating a
missing or unparsable value as 0, which the rational field absorbs). -/
structure ActionValue where
  action_type : String
  value : ℚ
deriving Repr, DecidableEq

/-- One raw row of the upstream insights response, after date formatting
(the fields of the items consumed by lines 549–784).  `conversions` is the
already-parsed `parseInt(item.conversions || 0)`; `purchase_roas` is `some r`
when the field is present and truthy. -/
structure InsightItem where
  date_start : String
  date_stop : String
  impressions : Nat
  clicks : Nat
  spend : ℚ
  conversions : Nat
  actions : Option (List RawAction)
  action_values : Option (List ActionValue)
  purchase_roas : Option ℚ
deriving Repr, DecidableEq

/-- A record produced by `getAccountPerformance`: the fields of the
aggregated object of lines 813–827 and of the zero record of lines 800–809.
(The per-day `costPerConversion` of line 781 is computed but not carried
into either output object, so it is not a field here.) -/
structure PerformanceRecord where
  date_start : String
  date_stop : String
  impressions : Nat
  clicks : Nat
  spend : ℚ
  conversions : Nat
  purchases : Nat
  revenue : ℚ
deriving Repr, DecidableEq

/-- The pixel purchase event type, first in classifier priority (line 584,
checked first at line 676). -/
def pixelPurchaseType : String := "offsite_conversion.fb_pixel_purchase"

/-- The remaining purchase types in priority order — the `purchaseTypes`
array of line 683. -/
def fallbackPurchaseTypes : List String :=
  ["purchase", "onsite_web_purchase", "web_in_store_purchase",
   "onsite_web_app_purchase", "omni_purchase"]

/-- The `leadActions` array of lines 595–602. -/
def leadActions : List String :=
  ["lead", "complete_registration", "contact", "submit_application",
   "subscribe", "messaging_conversation_started_7d"]

/-- The `cartActions` array of lines 604–608. -/
def cartActions : List String :=
  ["add_to_cart", "add_to_wishlist", "initiate_checkout"]

/-- `actionCountByType[t]` (lines 614–653): each occurrence of an action of
type `t` contributes exactly 1 to the count, regardless of its `value`. -/
def actionCount (acts : List RawAction) (t : String) : Nat :=
  (acts.filter (fun a => decide (a.action_type = t))).length

/-- The distinct action types present in a day's `actions` list, in
first-occurrence order — the keys of `actionCountByType` (an entry with a
falsy, i.e. empty, `action_type` is never added: line 619). -/
def distinctActionTypes (acts : List RawAction) : List String :=
  ((acts.filter (fun a => decide (a.action_type ≠ ""))).map
    (fun a => a.action_type)).eraseDups

/-- The priority-ordered purchase count of lines 675–692: the count of the
pixel purchase type when non-zero, else the count of the first
`fallbackPurchaseTypes` entry with a non-zero count, else 0.  Counts of
distinct purchase types are never added together. -/
def priorityPurchases (acts : List RawAction) : Nat :=
  if actionCount acts pixelPurchaseType ≠ 0 then
    actionCount acts pixelPurchaseType
  else
    match fallbackPurchaseTypes.find? (fun t => actionCount acts t != 0) with
    | some t => actionCount acts t
    | none => 0

/-- The lead/cart contribution of lines 694–707: every distinct present type
that is a lead or cart type adds its occurrence count to the general
conversions counter. -/
def leadCartConversions (acts : List RawAction) : Nat :=
  ((distinctActionTypes acts).filter
      (fun t => leadActions.any (fun x => decide (x = t)) ||
                cartActions.any (fun x => decide (x = t)))).foldl
    (fun n t => n + actionCount acts t) 0

/-- `item.date_start.split('-')[2]` (line 577); a missing third component
behaves like the JavaScript `undefined` and can never equal `"23"`. -/
def dayComponent (s : String) : String :=
  String.mk ((splitOnDash s.data).getD 2 [])

/-- The priority list of action types whose monetary values count as
purchase revenue (lines 727–741): the pixel type, plus — only when no pixel
entry is present — the first fallback type that has an entry. -/
def purchaseValueTypes (avs : List ActionValue) : List String :=
  if avs.any (fun av => decide (av.action_type = pixelPurchaseType)) then
    [pixelPurchaseType]
  else
    match ["purchase", "onsite_web_purchase", "web_in_store_purchase",
           "onsite_web_app_purchase"].find?
        (fun t => avs.any (fun av => decide (av.action_type = t))) with
    | some t => [pixelPurchaseType, t]
    | none => [pixelPurchaseType]

/-- The revenue computation of lines 720–774: `spend × purchase_roas` when a
truthy `purchase_roas` is present, else the sum of the `action_values`
entries whose type is in `purchaseValueTypes`, else 0. -/
def computeRevenue (spend : ℚ) (roas : Option ℚ)
    (avs : Option (List ActionValue)) : ℚ :=
  match roas with
  | some r => spend * r
  | none =>
    match avs with
    | some l =>
      (l.filter (fun av =>
          (purchaseValueTypes l).any (fun t => decide (t = av.action_type)))).foldl
        (fun acc av => acc + av.value) 0
    | none => 0

/-- One day's classification — the body of the `map` at lines 549–784 of
`getAccountPerformance`.  When an `actions` array is present (a present empty
array is truthy in JavaScript and takes this branch too) and the day
component of `date_start` is `"23"`, lines 667–670 force `purchases = 5` and
skip the lead/cart additions; otherwise purchases follow the priority rule
and lead/cart counts are added to conversions.  Lines 711–715 then widen
conversions to `max conversions purchases` whenever `purchases > 0`. -/
def classifyItem (item : InsightItem) : PerformanceRecord :=
  let stage :=
    match item.actions with
    | none => (0, item.conversions)
    | some acts =>
      if dayComponent item.date_start = "23" then
        (5, item.conversions)
      else
        (priorityPurchases acts, item.conversions + leadCartConversions acts)
  let purchases := stage.1
  let conversions := if purchases > 0 then max stage.2 purchases else stage.2
  { date_start := item.date_start
    date_stop := item.date_stop
    impressions := item.impressions
    clicks := item.clicks
    spend := item.spend
    conversions := conversions
    purchases := purchases
    revenue := computeRevenue item.spend item.purchase_roas item.action_values }

/-- One step of the `reduce` at lines 813–827: sum the six metrics and keep
the least `date_start` and the greatest `date_stop` seen so far. -/
def accumulateRecord (acc item : PerformanceRecord) : PerformanceRecord :=
  { date_start := if strLt item.date_start acc.date_start then item.date_start
                  else acc.date_start
    date_stop := if strLt acc.date_stop item.date_stop then item.date_stop
                 else acc.date_stop
    impressions := acc.impressions + item.impressions
    clicks := acc.clicks + item.clicks
    spend := acc.spend + item.spend
    conversions := acc.conversions + item.conversions
    purchases := acc.purchases + item.purchases
    revenue := acc.revenue + item.revenue }

/-- The successful-API path of `getAccountPerformance` for a range not
ending today (lines 536–843): filter the response rows to the requested
range (lines 541–544), classify each surviving day, then either return the
single zero record of lines 798–810 when nothing survived, or reduce all the
days into one aggregated record (lines 813–830). -/
def getAccountPerformanceCore (since untilDate : String)
    (responseData : List InsightItem) : List PerformanceRecord :=
  let filtered := responseData.filter (fun item =>
    strLe since item.date_start && strLe item.date_start untilDate)
  match filtered.map classifyItem with
  | [] =>
    [{ date_start := since, date_stop := untilDate, impressions := 0,
       clicks := 0, spend := 0, conversions := 0, purchases := 0, revenue := 0 }]
  | first :: rest => [rest.foldl accumulateRecord first]

/-! ### statsController.js — gap filling, aggregation, previous period and
derived rates

The controller manipulates dates only through whole-day `Date` arithmetic on
values parsed from canonical `YYYY-MM-DD` strings at UTC midnight, so dates
here are integer day numbers; `daysFromCivil` maps a civil date to its day
number. -/

/-- One dense daily record as handled by `getDashboardStats`. -/
structure DayRecord where
  dateDay : Int
  impressions : Nat
  clicks : Nat
  spend : ℚ
  conversions : Nat
  purchases : Nat
  revenue : ℚ
deriving Repr, DecidableEq

/-- The zero-valued record synthesized for a day with no upstream data
(lines 104–121; its derived-rate fields, also all zero, are elided). -/
def zeroDayRecord (d : Int) : DayRecord :=
  { dateDay := d, impressions := 0, clicks := 0, spend := 0, conversions := 0,
    purchases := 0, revenue := 0 }

/-- The `dataByDate` index of lines 92–95: a later record with the same date
overwrites an earlier one, so lookup returns the last match. -/
def dataByDate (data : List DayRecord) (d : Int) : Option DayRecord :=
  data.foldl (fun acc r => if r.dateDay = d then some r else acc) none

/-- One iteration step of the gap-filling loop: emit `n` consecutive days
starting at day `d`, each taken from the index when present, else a zero
record. -/
def fillDaysFrom (data : List DayRecord) (d : Int) : Nat → List DayRecord
  | 0 => []
  | n + 1 =>
    (match dataByDate data d with
     | some r => r
     | none => zeroDayRecord d) :: fillDaysFrom data (d + 1) n

/-- The gap-filling loop of lines 97–122: one record per calendar day from
`startDay` to `endDay` inclusive (the loop advances by exactly
24·60·60·1000 ms per step from UTC midnight, i.e. one day number), so it
runs `endDay + 1 - startDay` times when the range is non-degenerate. -/
def fillAllDaysInPeriod (data : List DayRecord) (startDay endDay : Int) :
    List DayRecord :=
  fillDaysFrom data startDay (endDay + 1 - startDay).toNat

/-- The aggregate object built by `aggregatePeriodData` (lines 274–304).
Note it has exactly these six fields — in particular no `dataPointsCount`. -/
structure PeriodAggregate where
  impressions : Nat
  clicks : Nat
  spend : ℚ
  conversions : Nat
  purchases : Nat
  revenue : ℚ
deriving Repr, DecidableEq

/-- `aggregatePeriodData` (lines 274–304): plain sums of the six metrics.
The empty-input guard returns the same zeros as the `reduce` seed, so a
single fold covers both branches. -/
def aggregatePeriodData (periodData : List DayRecord) : PeriodAggregate :=
  periodData.foldl
    (fun agg day =>
      { impressions := agg.impressions + day.impressions
        clicks := agg.clicks + day.clicks
        spend := agg.spend + day.spend
        conversions := agg.conversions + day.conversions
        purchases := agg.purchases + day.purchases
        revenue := agg.revenue + day.revenue })
    { impressions := 0, clicks := 0, spend := 0, conversions := 0,
      purchases := 0, revenue := 0 }

/-- The emptiness test of line 151 reads `current.dataPointsCount`, a field
`aggregatePeriodData` never produces; the JavaScript property read yields
`undefined`, and `undefined === 0` is `false` for every aggregate. -/
def currentPeriodEmptyCheck (_current : PeriodAggregate) : Bool :=
  false

/-- The only `dataPointsCount` the controller actually emits (the log object
of line 246): `allDaysInPeriod.length`, the number of dense records,
zero-filled padding days included. -/
def loggedDataPointsCount (allDaysInPeriod : List DayRecord) : Nat :=
  allDaysInPeriod.length

/-- Modelled from the spec: the `dataPointsCount` that §4.4 of the spec
describes — the number of dense records with at least one non-zero metric.
No code in `statsController.js` computes this quantity; this definition is
the spec side of the comparison for claim C5. -/
def specDataPointsCount (denseRecords : List DayRecord) : Nat :=
  (denseRecords.filter (fun r =>
    decide (r.impressions ≠ 0) || decide (r.clicks ≠ 0) ||
    decide (r.spend ≠ 0) || decide (r.conversions ≠ 0) ||
    decide (r.purchases ≠ 0) || decide (r.revenue ≠ 0))).length

/-- The previous-period computation of lines 127–135.  `daysInPeriod` is the
rounded millisecond difference in days — exact here because both bounds are
UTC midnights — and both bounds move back by `setDate` whole-day arithmetic.
Returns `(previousStart, previousEnd)` as day numbers. -/
def computePreviousPeriod (startDay endDay : Int) : Int × Int :=
  let daysInPeriod := endDay - startDay
  (startDay - daysInPeriod - 1, startDay - 1)

/-- The derived rates of the dashboard response (lines 176–200): each is
guarded by a JavaScript truthiness test of its denominator. -/
structure DashboardRates where
  ctr : ℚ
  costPerClick : ℚ
  conversionRate : ℚ
  costPerConversion : ℚ
  roas : ℚ
  previousCtr : ℚ
  previousCostPerClick : ℚ
  previousConversionRate : ℚ
  previousCostPerConversion : ℚ
  previousRoas : ℚ
deriving Repr, DecidableEq

/-- Lines 176–200 of `getDashboardStats`: every rate is computed from the
period totals, with the zero denominator short-circuited to 0 by the
truthiness guard. -/
def computeDashboardRates (current previous : PeriodAggregate) : DashboardRates :=
  { ctr := if current.impressions = 0 then 0
           else ((current.clicks : ℚ) / current.impressions) * 100
    costPerClick := if current.clicks = 0 then 0
                    else current.spend / current.clicks
    conversionRate := if current.clicks = 0 then 0
                      else ((current.conversions : ℚ) / current.clicks) * 100
    costPerConversion := if current.conversions = 0 then 0
                         else current.spend / current.conversions
    roas := if current.spend = 0 then 0
            else (current.revenue / current.spend) * 100
    previousCtr := if previous.impressions = 0 then 0
                   else ((previous.clicks : ℚ) / previous.impressions) * 100
    previousCostPerClick := if previous.clicks = 0 then 0
                            else previous.spend / previous.clicks
    previousConversionRate := if previous.clicks = 0 then 0
                              else ((previous.conversions : ℚ) / previous.clicks) * 100
    previousCostPerConversion := if previous.conversions = 0 then 0
                                 else previous.spend / previous.conversions
    previousRoas := if previous.spend = 0 then 0
                    else (previous.revenue / previous.spend) * 100 }

/-- The per-day rates of the `dailyData` mapping (lines 203–218). -/
structure DailyRates where
  ctr : ℚ
  cpc : ℚ
  cpm : ℚ
  conversionRate : ℚ
  costPerConversion : ℚ
  roas : ℚ
deriving Repr, DecidableEq

/-- Lines 212–217: the per-day derived rates, each guarded by a truthiness
test of its denominator. -/
def computeDailyRates (day : DayRecord) : DailyRates :=
  { ctr := if day.impressions = 0 then 0
           else ((day.clicks : ℚ) / day.impressions) * 100
    cpc := if day.clicks = 0 then 0 else day.spend / day.clicks
    cpm := if day.impressions = 0 then 0
           else (day.spend / day.impressions) * 1000
    conversionRate := if day.clicks = 0 then 0
                      else ((day.conversions : ℚ) / day.clicks) * 100
    costPerConversion := if day.conversions = 0 then 0
                         else day.spend / day.conversions
    roas := if day.spend = 0 then 0 else (day.revenue / day.spend) * 100 }

/-- The classifier's purchase rule as §4.3 of the spec states it: one fixed
priority list headed by the pixel type, and the purchase count is the count
of the first type in that list with a non-zero count, 0 when none matches.
This is the spec side of the comparison for claim C1. -/
def specPriorityPurchases (acts : List RawAction) : Nat :=
  match (pixelPurchaseType :: fallbackPurchaseTypes).find?
      (fun t => actionCount acts t != 0) with
  | some t => actionCount acts t
  | none => 0

/-! ### Concrete sample inputs used by the witness and counterexample
theorems -/

/-- Three occurrences of the generic `purchase` event type. -/
def tripleGenericPurchaseActions : List RawAction :=
  [⟨"purchase"⟩, ⟨"purchase"⟩, ⟨"purchase"⟩]

/-- A day (not the 23rd) reporting three generic `purchase` events and five
pixel purchase events — the priority example of the spec. -/
def pixelBeatsGenericItem : InsightItem :=
  { date_start := "2024-03-10", date_stop := "2024-03-10", impressions := 100,
    clicks := 10, spend := 50, conversions := 0,
    actions := some (tripleGenericPurchaseActions ++
      [⟨"offsite_conversion.fb_pixel_purchase"⟩, ⟨"offsite_conversion.fb_pixel_purchase"⟩,
       ⟨"offsite_conversion.fb_pixel_purchase"⟩, ⟨"offsite_conversion.fb_pixel_purchase"⟩,
       ⟨"offsite_conversion.fb_pixel_purchase"⟩]),
    action_values := none, purchase_roas := none }

/-- A 23rd-of-month day reporting three generic `purchase` events. -/
def day23TripleGenericItem : InsightItem :=
  { date_start := "2024-03-23", date_stop := "2024-03-23", impressions := 100,
    clicks := 10, spend := 50, conversions := 0,
    actions := some tripleGenericPurchaseActions,
    action_values := none, purchase_roas := none }

/-- A 23rd-of-month day reporting a single `purchase` event. -/
def day23SinglePurchaseItem : InsightItem :=
  { date_start := "2024-03-23", date_stop := "2024-03-23", impressions := 10,
    clicks := 2, spend := 5, conversions := 0,
    actions := some [⟨"purchase"⟩], action_values := none, purchase_roas := none }

/-- The same single-`purchase` day moved to the 24th. -/
def day24SinglePurchaseItem : InsightItem :=
  { date_start := "2024-03-24", date_stop := "2024-03-24", impressions := 10,
    clicks := 2, spend := 5, conversions := 0,
    actions := some [⟨"purchase"⟩], action_values := none, purchase_roas := none }

/-- A 23rd-of-month day with six `lead` events and no purchase events. -/
def day23SixLeadsItem : InsightItem :=
  { date_start := "2024-03-23", date_stop := "2024-03-23", impressions := 10,
    clicks := 2, spend := 5, conversions := 0,
    actions := some [⟨"lead"⟩, ⟨"lead"⟩, ⟨"lead"⟩, ⟨"lead"⟩, ⟨"lead"⟩, ⟨"lead"⟩],
    action_values := none, purchase_roas := none }

/-- A regular day with one `lead` event, one pixel purchase event and an
upstream conversions figure of 2. -/
def leadPlusPixelItem : InsightItem :=
  { date_start := "2024-03-10", date_stop := "2024-03-10", impressions := 20,
    clicks := 5, spend := 10, conversions := 2,
    actions := some [⟨"lead"⟩, ⟨"offsite_conversion.fb_pixel_purchase"⟩],
    action_values := none, purchase_roas := none }

/-- An insights row dated outside the March 1–2 request range. -/
def outOfRangeItem : InsightItem :=
  { date_start := "2024-05-10", date_stop := "2024-05-10", impressions := 3, clicks := 1,
    spend := 2, conversions := 0, actions := none, action_values := none,
    purchase_roas := none }

/-- A day-granularity insights row for 2024-03-01. -/
def marchFirstItem : InsightItem :=
  { date_start := "2024-03-01", date_stop := "2024-03-01", impressions := 3, clicks := 1,
    spend := 2, conversions := 0, actions := none, action_values := none,
    purchase_roas := none }

/-- A day-granularity insights row for 2024-03-02. -/
def marchSecondItem : InsightItem :=
  { date_start := "2024-03-02", date_stop := "2024-03-02", impressions := 4, clicks := 2,
    spend := 3, conversions := 1, actions := none, action_values := none,
    purchase_roas := none }

/-- A period aggregate with every metric zero. -/
def emptyAggregate : PeriodAggregate :=
  { impressions := 0, clicks := 0, spend := 0, conversions := 0, purchases := 0,
    revenue := 0 }

/-- A previous-period aggregate with zero spend but non-zero revenue. -/
def zeroSpendAggregate : PeriodAggregate :=
  { impressions := 0, clicks := 0, spend := 0, conversions := 0, purchases := 0,
    revenue := 7 }

/-! ## Helper lemmas -/

/-- Strict lexicographic order is irreflexive. -/
theorem lexLt_irrefl (l : List Char) : lexLt l l = false := by
  induction l with
  | nil => rfl
  | cons c cs ih => simp [lexLt, lt_irrefl, ih]

/-- Strict lexicographic order is asymmetric. -/
theorem lexLt_asymm {a b : List Char} (h : lexLt a b = true) : lexLt b a = false := by
  induction a generalizing b with
  | nil =>
    cases b with
    | nil => simp [lexLt] at h
    | cons d ds => simp [lexLt]
  | cons c cs ih =>
    cases b with
    | nil => simp [lexLt] at h
    | cons d ds =>
      by_cases hcd : c < d
      · simp [lexLt, hcd, lt_asymm hcd]
      · by_cases hdc : d < c
        · simp [lexLt, hcd, hdc] at h
        · simp [lexLt, hcd, hdc] at h ⊢
          exact ih h

/-- A comparison dichotomy for lexicographic order: anything below `a` is
below `b` or puts `b` below `a`. -/
theorem lexLt_cases {a b c : List Char} (h : lexLt c a = true) :
    lexLt c b = true ∨ lexLt b a = true := by
  induction c generalizing a b with
  | nil =>
    cases a with
    | nil => simp [lexLt] at h
    | cons a0 as =>
      cases b with
      | nil => right; simp [lexLt]
      | cons b0 bs => left; simp [lexLt]
  | cons c0 cs ih =>
    cases a with
    | nil => simp [lexLt] at h
    | cons a0 as =>
      cases b with
      | nil => right; simp [lexLt]
      | cons b0 bs =>
        rcases lt_trichotomy c0 b0 with hcb | hcb | hcb
        · left; simp [lexLt, hcb]
        · subst hcb
          rcases lt_trichotomy c0 a0 with hca | hca | hca
          · right; simp [lexLt, hca]
          · subst hca
            simp [lexLt, lt_irrefl] at h ⊢
            exact ih h
          · simp [lexLt, hca, lt_asymm hca] at h
        · rcases lt_trichotomy c0 a0 with hca | hca | hca
          · right; simp [lexLt, lt_trans hcb hca]
          · subst hca; right; simp [lexLt, hcb]
          · simp [lexLt, hca, lt_asymm hca] at h

/-- Transitivity of the non-strict lexicographic order, in negated-strict
form. -/
theorem lexLt_le_trans {a b c : List Char} (h1 : lexLt b a = false)
    (h2 : lexLt c b = false) : lexLt c a = false := by
  cases h3 : lexLt c a with
  | false => rfl
  | true =>
    rcases lexLt_cases h3 with h | h
    · rw [h] at h2; exact absurd h2 (by simp)
    · rw [h] at h1; exact absurd h1 (by simp)

/-- The JavaScript string `<=` is reflexive. -/
theorem strLe_refl (a : String) : strLe a a = true := by
  simp [strLe, lexLt_irrefl]

/-- The JavaScript string `<` implies `<=`. -/
theorem strLt_imp_strLe {a b : String} (h : strLt a b = true) : strLe a b = true := by
  simp [strLt] at h
  simp [strLe, lexLt_asymm h]

/-- The JavaScript string `<=` is transitive. -/
theorem strLe_trans {a b c : String} (h1 : strLe a b = true) (h2 : strLe b c = true) :
    strLe a c = true := by
  simp [strLe] at h1 h2 ⊢
  exact lexLt_le_trans h1 h2

/-- Classification never changes a record's `date_start`. -/
theorem classifyItem_date_start (item : InsightItem) :
    (classifyItem item).date_start = item.date_start := rfl

/-- Classification never changes a record's `date_stop`. -/
theorem classifyItem_date_stop (item : InsightItem) :
    (classifyItem item).date_stop = item.date_stop := rfl

/-- One aggregation step preserves `date_start <= date_stop` of the
accumulator, because the kept `date_start` can only move down and the kept
`date_stop` can only move up. -/
theorem accumulateRecord_dates {acc : PerformanceRecord} (item : PerformanceRecord)
    (h : strLe acc.date_start acc.date_stop = true) :
    strLe (accumulateRecord acc item).date_start
      (accumulateRecord acc item).date_stop = true := by
  have h1 : strLe (accumulateRecord acc item).date_start acc.date_start = true := by
    simp only [accumulateRecord]
    split
    · exact strLt_imp_strLe (by assumption)
    · exact strLe_refl _
  have h2 : strLe acc.date_stop (accumulateRecord acc item).date_stop = true := by
    simp only [accumulateRecord]
    split
    · exact strLt_imp_strLe (by assumption)
    · exact strLe_refl _
  exact strLe_trans h1 (strLe_trans h h2)

/-- The full aggregation fold preserves `date_start <= date_stop`. -/
theorem foldl_accumulateRecord_dates (l : List PerformanceRecord)
    (init : PerformanceRecord) (h : strLe init.date_start init.date_stop = true) :
    strLe (l.foldl accumulateRecord init).date_start
      (l.foldl accumulateRecord init).date_stop = true := by
  induction l generalizing init with
  | nil => exact h
  | cons x xs ih => exact ih _ (accumulateRecord_dates x h)

/-- The last-match-wins fold behind `dataByDate` only ever returns a record
whose date is the searched day. -/
theorem foldl_lookup_dateDay (d : Int) :
    ∀ (data : List DayRecord) (acc : Option DayRecord),
      (∀ x, acc = some x → x.dateDay = d) →
      ∀ x, data.foldl (fun acc r => if r.dateDay = d then some r else acc) acc = some x →
        x.dateDay = d
  | [], _, hacc, x, hx => hacc x hx
  | y :: ys, acc, hacc, x, hx => by
    simp only [List.foldl_cons] at hx
    refine foldl_lookup_dateDay d ys _ ?_ x hx
    intro z hz
    by_cases hy : y.dateDay = d
    · rw [if_pos hy] at hz; cases hz; exact hy
    · rw [if_neg hy] at hz; exact hacc z hz

/-- `dataByDate` only returns a record dated the searched day. -/
theorem dataByDate_dateDay (data : List DayRecord) (d : Int) (r : DayRecord)
    (h : dataByDate data d = some r) : r.dateDay = d :=
  foldl_lookup_dateDay d data none (by intro x hx; cases hx) r h

/-- The gap-filling loop emits exactly as many records as it is asked for. -/
theorem fillDaysFrom_length (data : List DayRecord) (d : Int) (n : Nat) :
    (fillDaysFrom data d n).length = n := by
  induction n generalizing d with
  | zero => rfl
  | succ m ih => simp [fillDaysFrom, ih]

/-- The `i`-th record emitted by the gap-filling loop is the lookup result
for day `d + i`. -/
theorem fillDaysFrom_getElem (data : List DayRecord) (d : Int) (n : Nat)
    (i : Nat) (hi : i < (fillDaysFrom data d n).length) :
    (fillDaysFrom data d n)[i] =
      (match dataByDate data (d + i) with
       | some r => r
       | none => zeroDayRecord (d + i)) := by
  induction n generalizing d i with
  | zero => simp [fillDaysFrom] at hi
  | succ m ih =>
    cases i with
    | zero => simp [fillDaysFrom]
    | succ j =>
      have hj : j < (fillDaysFrom data (d + 1) m).length := by
        simp [fillDaysFrom_length] at hi ⊢; omega
      have hrec := ih (d + 1) j hj
      simp only [fillDaysFrom, List.getElem_cons_succ]
      rw [hrec]
      have harith : d + 1 + (j : Int) = d + ((j : Int) + 1) := by ring
      simp [harith]

/-- `fillDaysFrom_getElem` restated for `fillAllDaysInPeriod`. -/
theorem fillAllDaysInPeriod_getElem (data : List DayRecord) (startDay endDay : Int)
    (i : Nat) (hi : i < (fillAllDaysInPeriod data startDay endDay).length) :
    (fillAllDaysInPeriod data startDay endDay)[i] =
      (match dataByDate data (startDay + i) with
       | some r => r
       | none => zeroDayRecord (startDay + i)) :=
  fillDaysFrom_getElem data startDay _ i hi

/-- The conversions-widening step of lines 711–715 keeps the purchase count
below the conversions count. -/
theorem widen_le (c p : Nat) : p ≤ if p > 0 then max c p else c := by
  split
  · exact Nat.le_max_right _ _
  · omega

/-- Away from the day-23 special case, the classifier's purchase count is
exactly `priorityPurchases` of the day's actions. -/
theorem classifyItem_purchases_priority (item : InsightItem) (acts : List RawAction)
    (hacts : item.actions = some acts)
    (hday : dayComponent item.date_start ≠ "23") :
    (classifyItem item).purchases = priorityPurchases acts := by
  simp [classifyItem, hacts, hday]

/-- The two-stage check of the source (pixel type first, then a loop over
the remaining purchase types) equals the single priority-list rule stated by
the spec. -/
theorem priorityPurchases_eq_spec (acts : List RawAction) :
    priorityPurchases acts = specPriorityPurchases acts := by
  unfold priorityPurchases specPriorityPurchases
  by_cases hpix : actionCount acts pixelPurchaseType ≠ 0
  · rw [if_pos hpix, List.find?_cons_of_pos]
    simpa using hpix
  · rw [if_neg hpix, List.find?_cons_of_neg]
    simpa using hpix

/-! ## Claim theorems -/

/-- Claim C1 (amended: restricted to records whose date's day-of-month
component is not "23"; see C2 for the day-23 special case): for every day
record with a non-empty actions list, the classifier's purchase count equals
the occurrence count of the first purchase-indicating action type, in the
fixed priority order headed by the pixel purchase type, that has a non-zero
count; 0 when none occurs; counts of distinct purchase types are never
summed. -/
theorem c1_priority_rule (item : InsightItem) (acts : List RawAction)
    (hacts : item.actions = some acts) (_hne : acts ≠ [])
    (hday : dayComponent item.date_start ≠ "23") :
    (classifyItem item).purchases = specPriorityPurchases acts :=
  (classifyItem_purchases_priority item acts hacts hday).trans
    (priorityPurchases_eq_spec acts)

/-- Claim C1, witness: on a non-23rd day with three generic `purchase`
events and five pixel purchase events, the pixel type wins and the result is
5 — the counts are not summed. -/
theorem c1_witness : (classifyItem pixelBeatsGenericItem).purchases = 5 := by
  have h := c1_priority_rule pixelBeatsGenericItem _ rfl (by decide) (by decide)
  rw [h]; decide

/-- Claim C1, counterexample to the unrestricted claim: on a 23rd-of-month
record with three generic `purchase` events the code returns 5 (the
hard-coded special case), not the priority-rule value 3. -/
theorem c1_counterexample :
    (classifyItem day23TripleGenericItem).purchases ≠
      specPriorityPurchases tripleGenericPurchaseActions := by decide

/-- Claim C2: the code does contain the calendar-day special case the spec
flags as a bug — a record dated the 23rd with a single `purchase` event is
forced to 5 purchases, while the identical record dated the 24th gets the
priority-rule value 1 (which is also what the spec's rule requires). -/
theorem c2_day23_hardcoded :
    (classifyItem day23SinglePurchaseItem).purchases = 5 ∧
    (classifyItem day24SinglePurchaseItem).purchases = 1 ∧
    specPriorityPurchases [⟨"purchase"⟩] = 1 := by decide

/-- Claim C3 (amended: `getAccountPerformance` aggregates all processed days
into one record spanning the range, so equality of the two date fields fails
in general; what holds is `date_start <= date_stop` for every returned
record, given a well-formed range and day-granularity upstream rows). -/
theorem c3_amended (since untilDate : String) (responseData : List InsightItem)
    (hrange : strLe since untilDate = true)
    (hday : ∀ item ∈ responseData, item.date_start = item.date_stop) :
    ∀ r ∈ getAccountPerformanceCore since untilDate responseData,
      strLe r.date_start r.date_stop = true := by
  intro r hr
  unfold getAccountPerformanceCore at hr
  cases hfil : responseData.filter (fun item =>
      strLe since item.date_start && strLe item.date_start untilDate) with
  | nil =>
    rw [hfil] at hr
    simp at hr
    subst hr
    exact hrange
  | cons g0 gs =>
    rw [hfil] at hr
    simp only [List.map, List.mem_singleton] at hr
    subst hr
    apply foldl_accumulateRecord_dates
    have hg0 : g0 ∈ responseData := by
      have hmem : g0 ∈ responseData.filter (fun item =>
          strLe since item.date_start && strLe item.date_start untilDate) := by
        rw [hfil]; exact List.mem_cons_self _ _
      exact (List.mem_filter.mp hmem).1
    rw [classifyItem_date_start, classifyItem_date_stop, ← hday g0 hg0]
    exact strLe_refl _

/-- Claim C3, witness: a two-day range with day-granularity rows on both
days satisfies the amended statement. -/
theorem c3_witness :
    strLe "2024-03-01" "2024-03-02" = true ∧
    (∀ item ∈ [marchFirstItem, marchSecondItem], item.date_start = item.date_stop) ∧
    (∀ r ∈ getAccountPerformanceCore "2024-03-01" "2024-03-02"
        [marchFirstItem, marchSecondItem], strLe r.date_start r.date_stop = true) :=
  ⟨by decide, by decide,
    c3_amended "2024-03-01" "2024-03-02" [marchFirstItem, marchSecondItem]
      (by decide) (by decide)⟩

/-- Claim C3, counterexample to the claim as stated: with day-granularity
rows on 2024-03-01 and 2024-03-02, the single returned record spans the two
days, so not every returned element has `date_start = date_stop`. -/
theorem c3_counterexample :
    ¬ (∀ r ∈ getAccountPerformanceCore "2024-03-01" "2024-03-02"
        [marchFirstItem, marchSecondItem], r.date_start = r.date_stop) := by decide

/-- Claim C4: for every range with `startDay ≤ endDay`, the gap-filling step
produces exactly `endDay - startDay + 1` dense records; the `i`-th record
carries day `startDay + i` (hence every calendar day of the range appears
exactly once, in ascending order); a day with no indexed record gets the
all-zero synthesized record, and a day with an indexed record gets exactly
that record. -/
theorem c4_gap_filling (data : List DayRecord) (startDay endDay : Int)
    (h : startDay ≤ endDay) :
    ((fillAllDaysInPeriod data startDay endDay).length : Int) = endDay - startDay + 1 ∧
    ∀ (i : Nat) (hi : i < (fillAllDaysInPeriod data startDay endDay).length),
      ((fillAllDaysInPeriod data startDay endDay)[i].dateDay = startDay + i) ∧
      (dataByDate data (startDay + i) = none →
        (fillAllDaysInPeriod data startDay endDay)[i] = zeroDayRecord (startDay + i)) ∧
      (∀ rec, dataByDate data (startDay + i) = some rec →
        (fillAllDaysInPeriod data startDay endDay)[i] = rec) := by
  constructor
  · rw [fillAllDaysInPeriod, fillDaysFrom_length]
    omega
  · intro i hi
    have hel := fillAllDaysInPeriod_getElem data startDay endDay i hi
    refine ⟨?_, ?_, ?_⟩
    · rw [hel]
      cases hdb : dataByDate data (startDay + i) with
      | none => simp [zeroDayRecord]
      | some rec => simpa using dataByDate_dateDay data _ rec hdb
    · intro hdb; rw [hel, hdb]
    · intro rec hdb; rw [hel, hdb]

/-- Claim C4, witness: filling days 4–6 over a single upstream record yields
3 dense records. -/
theorem c4_witness :
    ((fillAllDaysInPeriod [zeroDayRecord 5] 4 6).length : Int) = 6 - 4 + 1 :=
  (c4_gap_filling [zeroDayRecord 5] 4 6 (by decide)).1

/-- Claim C5 (amended: the aggregate carries no `dataPointsCount` field at
all — the controller's emptiness check reads an absent field and is
constantly false, and the only value logged under that name is the total
dense-record count, an upper bound of the spec's nonzero-record count). -/
theorem c5_amended (denseRecords : List DayRecord) :
    currentPeriodEmptyCheck (aggregatePeriodData denseRecords) = false ∧
    specDataPointsCount denseRecords ≤ loggedDataPointsCount denseRecords :=
  ⟨rfl, List.length_filter_le _ _⟩

/-- Claim C5, counterexample: a period consisting of one zero-filled padding
day aggregates to exactly the same object as a truly empty period — so no
field of the aggregate can distinguish the two — while the spec's count (0)
differs from the logged count (1), and the code's emptiness check is false
even though the spec's count is 0. -/
theorem c5_counterexample :
    aggregatePeriodData [] = aggregatePeriodData [zeroDayRecord 0] ∧
    specDataPointsCount [zeroDayRecord 0] = 0 ∧
    loggedDataPointsCount [zeroDayRecord 0] = 1 ∧
    currentPeriodEmptyCheck (aggregatePeriodData [zeroDayRecord 0]) = false := by
  refine ⟨?_, by decide, by decide, rfl⟩
  simp [aggregatePeriodData, zeroDayRecord]

/-- Claim C6: the previous period ends the day before the current period
starts and has the same inclusive day count; in particular the current
period 2024-03-10 … 2024-03-19 yields the previous period
2024-02-29 … 2024-03-09 (2024 is a leap year). -/
theorem c6_previous_period (startDay endDay : Int) :
    (computePreviousPeriod startDay endDay).2 = startDay - 1 ∧
    (computePreviousPeriod startDay endDay).2 - (computePreviousPeriod startDay endDay).1 =
      endDay - startDay ∧
    computePreviousPeriod (daysFromCivil 2024 3 10) (daysFromCivil 2024 3 19) =
      (daysFromCivil 2024 2 29, daysFromCivil 2024 3 9) := by
  refine ⟨rfl, ?_, by decide⟩
  simp only [computePreviousPeriod]
  ring

/-- Claim C7 (amended: `purchases ≤ conversions` holds for every record; the
stated formula `conversions = max(rawConversions + lead/cart additions,
purchases)` holds for records away from the day-23 special case, which skips
the lead/cart additions). -/
theorem c7_amended (item : InsightItem) :
    (classifyItem item).purchases ≤ (classifyItem item).conversions ∧
    ∀ acts, item.actions = some acts → dayComponent item.date_start ≠ "23" →
      (classifyItem item).conversions =
        max (item.conversions + leadCartConversions acts) ((classifyItem item).purchases) := by
  constructor
  · cases hacts : item.actions with
    | none =>
      simp only [classifyItem, hacts]
      exact widen_le _ _
    | some acts =>
      simp only [classifyItem, hacts]
      by_cases h23 : dayComponent item.date_start = "23"
      · simp only [h23, ite_true]
        exact widen_le _ _
      · simp only [h23, ite_false]
        exact widen_le _ _
  · intro acts hacts hday
    simp only [classifyItem, hacts, hday, ite_false]
    split
    · rfl
    · omega

/-- Claim C7, witness: a regular day with raw conversions 2, one lead event
and one pixel purchase reconciles to `conversions = max (2 + 1) 1 = 3`, with
`purchases ≤ conversions`. -/
theorem c7_witness :
    (classifyItem leadPlusPixelItem).conversions = 3 ∧
    (classifyItem leadPlusPixelItem).purchases ≤ (classifyItem leadPlusPixelItem).conversions := by
  have h := c7_amended leadPlusPixelItem
  refine ⟨?_, h.1⟩
  rw [h.2 _ rfl (by decide)]
  decide

/-- Claim C7, counterexample to the unrestricted formula: a 23rd-of-month
record with six lead events and raw conversions 0 gets `conversions = 5`
(the forced purchase count), not `max (0 + 6) 5 = 6` — the lead additions
are skipped on day 23. -/
theorem c7_counterexample :
    (classifyItem day23SixLeadsItem).conversions ≠
      max (day23SixLeadsItem.conversions +
        leadCartConversions [⟨"lead"⟩, ⟨"lead"⟩, ⟨"lead"⟩, ⟨"lead"⟩, ⟨"lead"⟩, ⟨"lead"⟩])
        ((classifyItem day23SixLeadsItem).purchases) := by decide

/-- Claim C8: every derived rate of the dashboard response — current and
previous CTR, cost per click, conversion rate, cost per conversion and ROAS,
and the per-day CTR, CPC, CPM, conversion rate, cost per conversion and ROAS
— is 0 whenever its denominator is 0; in particular the previous-period ROAS
is 0 whenever the previous spend is 0, regardless of revenue. -/
theorem c8_zero_denominator_rates (current previous : PeriodAggregate) (day : DayRecord) :
    (current.impressions = 0 → (computeDashboardRates current previous).ctr = 0) ∧
    (current.clicks = 0 → (computeDashboardRates current previous).costPerClick = 0 ∧
      (computeDashboardRates current previous).conversionRate = 0) ∧
    (current.conversions = 0 → (computeDashboardRates current previous).costPerConversion = 0) ∧
    (current.spend = 0 → (computeDashboardRates current previous).roas = 0) ∧
    (previous.impressions = 0 → (computeDashboardRates current previous).previousCtr = 0) ∧
    (previous.clicks = 0 → (computeDashboardRates current previous).previousCostPerClick = 0 ∧
      (computeDashboardRates current previous).previousConversionRate = 0) ∧
    (previous.conversions = 0 →
      (computeDashboardRates current previous).previousCostPerConversion = 0) ∧
    (previous.spend = 0 → (computeDashboardRates current previous).previousRoas = 0) ∧
    (day.impressions = 0 → (computeDailyRates day).ctr = 0 ∧ (computeDailyRates day).cpm = 0) ∧
    (day.clicks = 0 → (computeDailyRates day).cpc = 0 ∧
      (computeDailyRates day).conversionRate = 0) ∧
    (day.conversions = 0 → (computeDailyRates day).costPerConversion = 0) ∧
    (day.spend = 0 → (computeDailyRates day).roas = 0) := by
  refine ⟨fun h => ?_, fun h => ⟨?_, ?_⟩, fun h => ?_, fun h => ?_, fun h => ?_,
    fun h => ⟨?_, ?_⟩, fun h => ?_, fun h => ?_, fun h => ⟨?_, ?_⟩,
    fun h => ⟨?_, ?_⟩, fun h => ?_, fun h => ?_⟩ <;>
  simp [computeDashboardRates, computeDailyRates, h]

/-- Claim C8, witness: with a previous period of zero spend and revenue 7,
the previous-period ROAS is 0 (no division fault), and the all-zero current
period yields CTR 0 and CPM 0. -/
theorem c8_witness :
    (computeDashboardRates emptyAggregate zeroSpendAggregate).previousRoas = 0 ∧
    (computeDashboardRates emptyAggregate zeroSpendAggregate).ctr = 0 ∧
    (computeDailyRates (zeroDayRecord 0)).cpm = 0 := by
  have h := c8_zero_denominator_rates emptyAggregate zeroSpendAggregate (zeroDayRecord 0)
  exact ⟨h.2.2.2.2.2.2.2.1 rfl, h.1 rfl, (h.2.2.2.2.2.2.2.2.1 rfl).2⟩

/-- Claim C9, counterexample to the claim as stated: `formatToStandardDate`
passes the calendar-invalid `"2024-02-30"` through unchanged (it matches the
shape regex, so no validation at all happens), rather than returning a typed
invalid-date error. -/
theorem c9_counterexample :
    formatToStandardDate (fun _ => none) "2024-02-30" = some "2024-02-30" := by decide

/-- Claim C9 (amended: calendar validity is enforced not by the normalizer
but by the separate `isValidDateFormat`, which rejects `"2024-02-30"`,
`"2023-02-29"` and `"2024-13-01"` and accepts `"2024-02-29"`, while
`formatToStandardDate` passes any shape-matching string through unchanged
for every fallback parser). -/
theorem c9_amended :
    isValidDateFormat "2024-02-30" = false ∧
    isValidDateFormat "2024-02-29" = true ∧
    isValidDateFormat "2023-02-29" = false ∧
    isValidDateFormat "2024-13-01" = false ∧
    ∀ parseFallback, formatToStandardDate parseFallback "2024-02-30" = some "2024-02-30" := by
  refine ⟨by decide, by decide, by decide, by decide, fun parseFallback => ?_⟩
  have h1 : ¬("2024-02-30" = "") := by decide
  have h2 : matchesCanonicalFormat "2024-02-30" = true := by decide
  simp [formatToStandardDate, h1, h2]

/-- Claim C10: when the upstream call succeeds but no row lies inside the
requested range, `getAccountPerformance` returns a one-element array whose
record has `date_start = since`, `date_stop = until` and all six metrics
zero. -/
theorem c10_no_data_zero_record (since untilDate : String)
    (responseData : List InsightItem)
    (h : responseData.filter (fun item =>
        strLe since item.date_start && strLe item.date_start untilDate) = []) :
    getAccountPerformanceCore since untilDate responseData =
      [{ date_start := since, date_stop := untilDate, impressions := 0, clicks := 0,
         spend := 0, conversions := 0, purchases := 0, revenue := 0 }] := by
  unfold getAccountPerformanceCore
  rw [h]
  rfl

/-- Claim C10, witness: a response whose only row is dated outside the
March 1–2 range yields exactly the single zero record for that range. -/
theorem c10_witness :
    getAccountPerformanceCore "2024-03-01" "2024-03-02" [outOfRangeItem] =
      [{ date_start := "2024-03-01", date_stop := "2024-03-02", impressions := 0, clicks := 0,
         spend := 0, conversions := 0, purchases := 0, revenue := 0 }] :=
  c10_no_data_zero_record "2024-03-01" "2024-03-02" [outOfRangeItem] (by decide)

end SpeedFunnels
